import Mathlib

/-!
Verification development for the `almdrlib` OpenAPI v3 dynamic client builder
(`src/almdrlib/client.py`).

Python values are modelled by the mutual inductive types `PyVal` / `PyList` /
`PyDict`; Python dictionaries are modelled as insertion-ordered sequences of
string-keyed bindings, which is faithful to the dictionaries the client
manipulates (string keys, insertion order preserved, unique keys).
Exceptions are modelled by `PyErr`, and fallible code returns
`Except PyErr _`.  One caveat recorded once and for all: where CPython
iterates over a `set` (in `deep_merge`), the iteration order is
unspecified; the model fixes the canonical first-occurrence order, and all
theorems about merged dictionaries are stated so that only the key→value
mapping matters.
-/

namespace Almdrlib

mutual
/-- Model of the Python values handled by the client: `None`, strings,
integers, booleans, bytes (result of `str.encode()`), lists and
string-keyed dictionaries. -/
inductive PyVal where
  | none
  | str (s : String)
  | int (n : Int)
  | bool (b : Bool)
  | bytes (s : String)
  | list (xs : PyList)
  | dict (xs : PyDict)
  deriving Repr, DecidableEq

/-- A Python list of `PyVal`s. -/
inductive PyList where
  | nil
  | cons (v : PyVal) (tl : PyList)
  deriving Repr, DecidableEq

/-- A Python dictionary: insertion-ordered string-keyed bindings. -/
inductive PyDict where
  | nil
  | cons (k : String) (v : PyVal) (tl : PyDict)
  deriving Repr, DecidableEq
end

/-- Python exception kinds raised by the code under `src/almdrlib`.
Messages are reproduced from the source f-strings (with the incidental
whitespace of source-level line continuations normalised to single spaces). -/
inductive PyErr where
  | valueError (msg : String)
  | almdrlibValueError (msg : String)
  | keyError (key : String)
  | attributeError (msg : String)
  | typeError (msg : String)
  | indexError (msg : String)
  | stopIteration
  deriving Repr, DecidableEq

/-- Convert a Lean list into a `PyList` (notation helper for literals). -/
def PyList.ofList : List PyVal → PyList
  | [] => .nil
  | v :: tl => .cons v (PyList.ofList tl)

/-- Convert a Lean association list into a `PyDict` (notation helper). -/
def PyDict.ofList : List (String × PyVal) → PyDict
  | [] => .nil
  | (k, v) :: tl => .cons k v (PyDict.ofList tl)

/-- `d[k]` lookup returning `Option` (keys are unique in Python dicts, so
the first binding is the binding). -/
def PyDict.lookup : PyDict → String → Option PyVal
  | .nil, _ => Option.none
  | .cons k' v tl, k => if k' = k then some v else tl.lookup k

/-- `k in d` membership test. -/
def PyDict.contains (d : PyDict) (k : String) : Bool :=
  (d.lookup k).isSome

/-- `d[k] = v` assignment: an existing binding is replaced in place, a new
key is appended at the end — CPython dictionary semantics. -/
def PyDict.set : PyDict → String → PyVal → PyDict
  | .nil, k, v => .cons k v .nil
  | .cons k' v' tl, k, v =>
      if k' = k then .cons k' v tl else .cons k' v' (tl.set k v)

/-- Remove the binding of `k` (if any). -/
def PyDict.erase : PyDict → String → PyDict
  | .nil, _ => .nil
  | .cons k' v' tl, k => if k' = k then tl else .cons k' v' (tl.erase k)

/-- `d.pop(k, default)` in the flavour returning both the value and the
shrunken dictionary; the caller supplies the absent-key behaviour. -/
def PyDict.pop (d : PyDict) (k : String) : Option PyVal × PyDict :=
  (d.lookup k, d.erase k)

/-- `list(d.keys())`. -/
def PyDict.keys : PyDict → List String
  | .nil => []
  | .cons k _ tl => k :: tl.keys

/-- Number of bindings (`len(d)`). -/
def PyDict.length : PyDict → Nat
  | .nil => 0
  | .cons _ _ tl => tl.length + 1

/-- Concatenate two binding sequences (used by the merge model; the left
part is assumed to already contain every key of interest exactly once). -/
def PyDict.append : PyDict → PyDict → PyDict
  | .nil, e => e
  | .cons k v tl, e => .cons k v (tl.append e)

/-- `target.update(source)`: assign every binding of `source` in order. -/
def PyDict.update (d e : PyDict) : PyDict :=
  match e with
  | .nil => d
  | .cons k v tl => (d.set k v).update tl

/-- `update_dict_no_replace(target, source)` (client.py:887-890): copy the
bindings of `source` whose keys are absent from `target`. -/
def update_dict_no_replace (target source : PyDict) : PyDict :=
  match source with
  | .nil => target
  | .cons k v tl =>
      update_dict_no_replace (if target.contains k then target else target.set k v) tl

/-- `len(xs)` for a Python list. -/
def PyList.length : PyList → Nat
  | .nil => 0
  | .cons _ tl => tl.length + 1

/-- Membership in a Python list (by equality, as for `in` / `set`). -/
def PyList.mem (xs : PyList) (v : PyVal) : Bool :=
  match xs with
  | .nil => false
  | .cons v' tl => v' = v || tl.mem v

/-- Python truthiness (`bool(v)`). -/
def truthy : PyVal → Bool
  | .none => false
  | .str s => s ≠ ""
  | .int n => n ≠ 0
  | .bool b => b
  | .bytes s => s ≠ ""
  | .list xs => xs ≠ .nil
  | .dict xs => xs ≠ .nil

mutual
/-- Python `repr(v)` for the value shapes the client handles (strings
without quotes or escapes in them, which is all the claims exercise). -/
def pyRepr : PyVal → String
  | .none => "None"
  | .str s => "'" ++ s ++ "'"
  | .int n => toString n
  | .bool b => if b then "True" else "False"
  | .bytes s => "b'" ++ s ++ "'"
  | .list xs => "[" ++ pyReprList xs ++ "]"
  | .dict xs => "\x7b" ++ pyReprDict xs ++ "\x7d"

/-- `repr` of the comma-separated elements of a list. -/
def pyReprList : PyList → String
  | .nil => ""
  | .cons v .nil => pyRepr v
  | .cons v tl => pyRepr v ++ ", " ++ pyReprList tl

/-- `repr` of the comma-separated bindings of a dictionary. -/
def pyReprDict : PyDict → String
  | .nil => ""
  | .cons k v .nil => "'" ++ k ++ "': " ++ pyRepr v
  | .cons k v tl => "'" ++ k ++ "': " ++ pyRepr v ++ ", " ++ pyReprDict tl
end

/-- Python `str(v)`: identical to `repr(v)` except on strings. -/
def pyStr : PyVal → String
  | .str s => s
  | v => pyRepr v

mutual
/-- `json.dumps(v)` with CPython's default separators `", "` and `": "`. -/
def jsonDumps : PyVal → String
  | .none => "null"
  | .str s => "\"" ++ s ++ "\""
  | .int n => toString n
  | .bool b => if b then "true" else "false"
  | .bytes s => "\"" ++ s ++ "\""
  | .list xs => "[" ++ jsonDumpsList xs ++ "]"
  | .dict xs => "\x7b" ++ jsonDumpsDict xs ++ "\x7d"

/-- JSON encoding of the comma-separated elements of a list. -/
def jsonDumpsList : PyList → String
  | .nil => ""
  | .cons v .nil => jsonDumps v
  | .cons v tl => jsonDumps v ++ ", " ++ jsonDumpsList tl

/-- JSON encoding of the comma-separated bindings of a dictionary.
(`json.dumps` of a `bytes` value would raise a `TypeError` in CPython; the
`bytes` branch above is never reached by the modelled flows, which only
ever JSON-encode data popped out of keyword arguments.) -/
def jsonDumpsDict : PyDict → String
  | .nil => ""
  | .cons k v .nil => "\"" ++ k ++ "\": " ++ jsonDumps v
  | .cons k v tl => "\"" ++ k ++ "\": " ++ jsonDumps v ++ ", " ++ jsonDumpsDict tl
end

/-- `serialize_value(datatype, value)` (client.py:893-899): strings pass
through, booleans become the literal strings `"true"`/`"false"` by
truthiness, everything else becomes `str(value)`. -/
def serialize_value (datatype value : PyVal) : PyVal :=
  if datatype = .str "string" then value
  else if datatype = .str "boolean" then
    (if truthy value then .str "true" else .str "false")
  else .str (pyStr value)

/-- `get_dict_value(dict, list, default)` (client.py:874-884): walk the key
path; `KeyError` (missing key) and `TypeError` (indexing a non-dictionary)
both produce the default, as does an empty path. -/
def get_dict_value (v : PyVal) (path : List String) (dflt : PyVal) : PyVal :=
  match v, path with
  | _, [] => dflt
  | .dict xs, [k] => (xs.lookup k).getD dflt
  | .dict xs, k :: rest =>
      match xs.lookup k with
      | some v' => get_dict_value v' rest dflt
      | Option.none => dflt
  | _, _ :: _ => dflt

/-- The four output buckets built by `Operation._gen_call` (client.py:540-543)
and filled by `PathParameter.serialize`. -/
structure Buckets where
  path_params : PyDict
  query_params : PyDict
  headers : PyDict
  cookies : PyDict
  deriving Repr, DecidableEq

/-- `name.replace('-', '_')` (client.py:388): the pattern is a single
character, so the replacement is character-wise. -/
def underscoreName (s : String) : String :=
  ⟨s.data.map (fun c => if c = '-' then '_' else c)⟩

/-- `PathParameter.__init__` state (client.py:372-389): note `_name` holds
the caller-facing keyword name with hyphens replaced by underscores while
`_schema_name` keeps the wire name, and `_dataype` (source spelling) is the
`schema.type` entry defaulting to `"string"`.  `_default` is the lazily
cached session default, initially `None`. -/
structure PathParameter where
  _in : PyVal
  _name : String
  _schema_name : String
  _required : PyVal
  _description : PyVal
  _dataype : PyVal
  _spec : PyDict
  _default : PyVal
  deriving Repr, DecidableEq

/-- The record built by `PathParameter.__init__` once `spec["in"]` and the
string `spec["name"]` are in hand. -/
def mkParamRecord (spec : PyDict) (inv : PyVal) (nameStr : String) : PathParameter :=
  { _in := inv
    _name := underscoreName nameStr
    _schema_name := nameStr
    _required := (spec.lookup "required").getD (.bool false)
    _description := (spec.lookup "description").getD (.str "")
    _dataype := get_dict_value (.dict spec) ["schema", "type"] (.str "string")
    _spec := spec
    _default := .none }

/-- `PathParameter.__init__` (client.py:373-389): `spec["in"]` and
`spec["name"]` are indexed (a `KeyError` if absent), the name must be a
string (`str.replace` is called on it), the rest use `dict.get` defaults. -/
def mkPathParameter (spec : PyDict) : Except PyErr PathParameter :=
  match spec.lookup "in" with
  | Option.none => .error (.keyError "in")
  | some inv =>
      match spec.lookup "name" with
      | Option.none => .error (.keyError "name")
      | some (.str nameStr) => .ok (mkParamRecord spec inv nameStr)
      | some _ => .error (.attributeError "'object' has no attribute 'replace'")

/-- The `PathParameter.default` property (client.py:411-415): fetch the
session default for the caller-facing name on first access and cache it in
`self._default`; the session collaborator is the function `getDefault`. -/
def PathParameter.defaultP (p : PathParameter) (getDefault : String → PyVal) :
    PyVal × PathParameter :=
  if p._default = .none then
    (getDefault p._name, { p with _default := getDefault p._name })
  else (p._default, p)

/-- Lines 436-449 of `PathParameter.serialize`: compute
`serialize_value(self._dataype, kwargs.pop(self._name, self.default))` (the
`self.default` argument of `pop` is evaluated eagerly, fetching and caching
the session default even when the name is present in `kwargs`) and store it
under the wire name in the bucket selected by `self._in`; an unrecognized
location falls through every `elif` and stores nothing. -/
def PathParameter.serializeStore (p : PathParameter) (getDefault : String → PyVal)
    (b : Buckets) (kwargs : PyDict) : Buckets × PyDict × PathParameter :=
  let dp := p.defaultP getDefault
  let popped := kwargs.pop p._name
  let value := serialize_value p._dataype (popped.1.getD dp.1)
  if p._in = .str "path" then
    ({ b with path_params := b.path_params.set p._schema_name value }, popped.2, dp.2)
  else if p._in = .str "query" then
    ({ b with query_params := b.query_params.set p._schema_name value }, popped.2, dp.2)
  else if p._in = .str "header" then
    ({ b with headers := b.headers.set p._schema_name value }, popped.2, dp.2)
  else if p._in = .str "cookie" then
    ({ b with cookies := b.cookies.set p._schema_name value }, popped.2, dp.2)
  else (b, popped.2, dp.2)

/-- `PathParameter.serialize` (client.py:430-449).  The guard
`if self._name not in kwargs and not self.default:` evaluates the `default`
property (caching the session default) only when the name is absent from
`kwargs`; an absent, falsy-default, required parameter raises
`ValueError(f"'{self._name}' is required")`, an absent optional one is
skipped, and otherwise the value is serialized into its bucket. -/
def PathParameter.serialize (p : PathParameter) (getDefault : String → PyVal)
    (b : Buckets) (kwargs : PyDict) :
    Except PyErr (Buckets × PyDict × PathParameter) :=
  if ¬ kwargs.contains p._name then
    if ¬ truthy (p.defaultP getDefault).1 then
      if truthy (p.defaultP getDefault).2._required then
        .error (.valueError ("'" ++ (p.defaultP getDefault).2._name ++ "' is required"))
      else .ok (b, kwargs, (p.defaultP getDefault).2)
    else .ok ((p.defaultP getDefault).2.serializeStore getDefault b kwargs)
  else .ok (p.serializeStore getDefault b kwargs)

/-- The `PathParameter.schema` property (client.py:417-428): rebuild the
parameter spec with the `schema` entry inlined (`result.update(value)`,
which needs the value to be a dictionary) and the `name` entry dropped. -/
def PathParameter.schemaProp (p : PathParameter) : Except PyErr PyDict :=
  go p._spec .nil
where
  /-- Fold of the `for name, value in self._spec.items()` loop. -/
  go : PyDict → PyDict → Except PyErr PyDict
  | .nil, result => .ok result
  | .cons name value tl, result =>
      if name = "schema" then
        match value with
        | .dict d => go tl (result.update d)
        | _ => .error (.attributeError "'object' has no attribute 'items'")
      else if name = "name" then go tl result
      else go tl (result.set name value)

/-- `_normalize_schema(name, schema, required)` (client.py:838-852): a
schema that already has a truthy `properties` entry is kept; otherwise it
is wrapped as a single property named `name` of an object schema, marked
required when the body is. -/
def _normalize_schema (name : String) (sd : PyDict) (required : PyVal) : PyDict :=
  if truthy ((sd.lookup "properties").getD .none) then sd
  else
    let result : PyDict :=
      .ofList [("type", .str "object"), ("properties", .dict (.ofList [(name, .dict sd)]))]
    if truthy required then result.set "required" (.list (.ofList [.str name]))
    else result

/-- The three request-body parameter models (client.py:213-298):
`RequestBodyObjectParameter` (per-property decomposition, with the vendor
explode hint), `RequestBodySimpleParameter` (scalar, optionally binary) and
`RequestBodySchemaParameter` (opaque payload).  JSON-Schema validation is
delegated to the external `jsonschema` collaborator (spec §1 non-goal) and
is modelled as succeeding. -/
inductive RequestBodyParameter where
  | objectP (name : String) (nschema : PyDict) (explodeV : PyVal)
      (properties : PyVal) (requiredProps : PyVal) (required : PyVal)
  | simpleP (name : String) (schema : PyDict) (format : PyVal) (required : PyVal)
  | schemaP (name : String) (schema : PyVal) (required : PyVal)
  deriving Repr, DecidableEq

/-- `RequestBodyObjectParameter.__init__` (client.py:237-262): normalize the
schema, pop the vendor `encoding` hint and compute
`self._encoding and self._encoding.get("explode", False)`, then read the
normalized schema's `properties` and `required` entries. -/
def mkRequestBodyObjectParameter (name : String) (sd al : PyDict)
    (required : PyVal) : Except PyErr RequestBodyParameter := do
  let nschema := _normalize_schema name sd required
  let encoding := (al.lookup "encoding").getD .none
  let explodeV ← if ¬ truthy encoding then .ok encoding
    else match encoding with
      | .dict e => .ok ((e.lookup "explode").getD (.bool false))
      | _ => .error (.attributeError "'object' has no attribute 'get'")
  .ok (.objectP name nschema explodeV ((nschema.lookup "properties").getD .none)
        ((nschema.lookup "required").getD (.list .nil)) required)

/-- `all(name in kwargs for name in self._required_properties)`
(client.py:272): a non-string entry can never be a key of `kwargs`. -/
def allReqPresent : PyList → PyDict → Bool
  | .nil, _ => true
  | .cons (.str s) tl, kw => kw.contains s && allReqPresent tl kw
  | .cons _ _, _ => false

/-- `{k: kwargs.pop(k) for k in self._properties.keys() if k in kwargs}`
(client.py:277-280): extract the declared properties out of `kwargs` in
declaration order. -/
def extractProps : List String → PyDict → PyDict × PyDict
  | [], kw => (.nil, kw)
  | k :: ks, kw =>
      match kw.lookup k with
      | some v =>
          let (r, kw') := extractProps ks (kw.erase k)
          (.cons k v r, kw')
      | Option.none => extractProps ks kw

/-- `serialize(kwargs, headers)` of the three body parameter models
(client.py:217-220, 228-233, 271-294).  Every branch stores the encoded
payload under `kwargs['data']` and none of them reads `headers`, so the
model returns the updated `kwargs`.  In the object case, note the explode
branch encodes `result.pop(self.name)` — the entry of `result` named like
the payload itself, a `KeyError` when the caller did not pass that key. -/
def RequestBodyParameter.serialize :
    RequestBodyParameter → PyDict → Except PyErr PyDict
  | .schemaP name _ _, kwargs =>
      let (dOpt, kw) := kwargs.pop name
      let data := dOpt.getD (.dict .nil)
      .ok (kw.set "data" (.str (jsonDumps data)))
  | .simpleP name _ format _, kwargs =>
      let (dOpt, kw) := kwargs.pop name
      let data := dOpt.getD (.str "")
      if format = .str "binary" then
        match data with
        | .str s => .ok (kw.set "data" (.bytes s))
        | _ => .error (.attributeError "'object' has no attribute 'encode'")
      else .ok (kw.set "data" data)
  | .objectP name _ explodeV properties requiredProps required, kwargs => do
      let reqList ← match requiredProps with
        | .list l => .ok l
        | _ => .error (.typeError "'object' is not iterable")
      if ¬ allReqPresent reqList kwargs then
        .error (.almdrlibValueError ("'" ++ pyStr requiredProps ++
          "' parameters are required. '" ++ pyStr (.dict kwargs) ++ "' were provided."))
      else do
        let propsD ← match properties with
          | .dict d => .ok d
          | _ => .error (.attributeError "'object' has no attribute 'keys'")
        let (result, kw) := extractProps propsD.keys kwargs
        if truthy required ∧ result = .nil then
          -- source message: f"At least one the {self._properties.keys()}
          -- parameters must be specified." (abridged here)
          .error (.almdrlibValueError "At least one of the parameters must be specified.")
        else if truthy explodeV then
          match result.lookup name with
          | some v => .ok (kw.set "data" (.str (jsonDumps v)))
          | Option.none => .error (.keyError name)
        else .ok (kw.set "data" (.str (jsonDumps (.dict (.cons name (.dict result) .nil)))))

/-- The schema exposed by a body parameter: `RequestBodyObjectParameter`
overrides it with `self._properties` (client.py:296-298); the other two use
the base `{self._name: self._schema}` (client.py:206-210). -/
def RequestBodyParameter.schemaOf : RequestBodyParameter → PyVal
  | .objectP _ _ _ properties _ _ => properties
  | .simpleP name schema _ _ => .dict (.cons name (.dict schema) .nil)
  | .schemaP name schema _ => .dict (.cons name schema .nil)

/-- Association-list update for the content-type map `self._content`. -/
def setCT (m : List (String × RequestBodyParameter)) (k : String)
    (v : RequestBodyParameter) : List (String × RequestBodyParameter) :=
  match m with
  | [] => [(k, v)]
  | (k', v') :: tl => if k' = k then (k', v) :: tl else (k', v') :: setCT tl k v

/-- Lookup in the content-type map. -/
def lookupCT (m : List (String × RequestBodyParameter)) (k : String) :
    Option RequestBodyParameter :=
  match m with
  | [] => Option.none
  | (k', v) :: tl => if k' = k then some v else lookupCT tl k

/-- `RequestBody` (client.py:301-308): required flag, description and the
content-type → body-parameter map. -/
structure RequestBody where
  _required : PyVal
  _description : PyVal
  _content : List (String × RequestBodyParameter)
  deriving Repr, DecidableEq

/-- `RequestBody.add_content(content_type, schema, al_schema)`
(client.py:310-339): a falsy schema registers nothing; otherwise the
schema's `type` picks the object / simple / opaque parameter model, and the
vendor schema's `name` (default `"data"`) names the payload. -/
def RequestBody.add_content (rb : RequestBody) (content_type : String)
    (schema al_schema : PyVal) : Except PyErr RequestBody := do
  if ¬ truthy schema then .ok rb
  else do
    let sd ← match schema with
      | .dict d => .ok d
      | _ => .error (.attributeError "'object' has no attribute 'get'")
    let al ← match al_schema with
      | .dict d => .ok d
      | _ => .error (.attributeError "'object' has no attribute 'get'")
    let datatype := (sd.lookup "type").getD .none
    let name ← match (al.lookup "name").getD (.str "data") with
      | .str s => .ok s
      | _ => .error (.typeError "unhashable payload name")
    let param ←
      if datatype = .str "object" then
        mkRequestBodyObjectParameter name sd al rb._required
      else if datatype = .str "string" ∨ datatype = .str "boolean" ∨
          datatype = .str "integer" ∨ datatype = .str "number" then
        .ok (.simpleP name sd ((sd.lookup "format").getD .none) rb._required)
      else
        .ok (.schemaP name schema rb._required)
    .ok { rb with _content := setCT rb._content content_type param }

/-- `RequestBody.serialize(headers, kwargs)` (client.py:341-356): an
explicit `content-type` header selects the variant (a `KeyError` if it is
not registered); with no header and exactly one variant that variant is
chosen and its content type recorded in the headers; otherwise the call
fails with `AlmdrlibValueError("'content_type'parameter is required.")`
(message reproduced verbatim, missing space included). -/
def RequestBody.serialize (rb : RequestBody) (headers kwargs : PyDict) :
    Except PyErr (PyDict × PyDict) :=
  match headers.lookup "content-type" with
  | some ctv =>
      (match ctv with
       | .str ct =>
          match lookupCT rb._content ct with
          | some bp => do
              let kw ← bp.serialize kwargs
              .ok (headers, kw)
          | Option.none => .error (.keyError ct)
       | _ => .error (.keyError (pyStr ctv)))
  | Option.none =>
      match rb._content with
      | [(ct, bp)] => do
          let headers1 := headers.set "content-type" (.str ct)
          let kw ← bp.serialize kwargs
          .ok (headers1, kw)
      | _ => .error (.almdrlibValueError "'content_type'parameter is required.")

/-- `RequestBody.get_schema()` (client.py:358-362): the schema of the first
registered variant (`next(iter(...))`, a `StopIteration` when empty) under
a `properties` key. -/
def RequestBody.get_schemaM (rb : RequestBody) : Except PyErr PyDict :=
  match rb._content with
  | [] => .error .stopIteration
  | (_, bp) :: _ => .ok (.cons "properties" bp.schemaOf .nil)

/-- Python list concatenation. -/
def PyList.append : PyList → PyList → PyList
  | .nil, b => b
  | .cons v tl, b => .cons v (tl.append b)

/-- Deduplicate keeping first occurrences (`seen` accumulates the values
already emitted). -/
def pyDedupeGo : PyList → PyList → PyList
  | .nil, _ => .nil
  | .cons v tl, seen =>
      if seen.mem v then pyDedupeGo tl seen
      else .cons v (pyDedupeGo tl (.cons v seen))

/-- Deduplicate keeping first occurrences. -/
def pyDedupe (xs : PyList) : PyList :=
  pyDedupeGo xs .nil

/-- `list(set(a + b))` (client.py:863).  CPython's `set` iteration order is
unspecified; the model fixes the first-occurrence order, and union claims
are stated up to membership. -/
def pySetUnion (a b : PyList) : PyList :=
  pyDedupe (a.append b)

/-- The entries of `s` whose keys are absent from `t`: the source-only part
of the key set `set(target.keys()).union(source.keys())` of `deep_merge`. -/
def PyDict.filterNotIn (s t : PyDict) : PyDict :=
  match s with
  | .nil => .nil
  | .cons k v tl => if t.contains k then tl.filterNotIn t else .cons k v (tl.filterNotIn t)

mutual
/-- The per-key loop body of `deep_merge(target, source)` (client.py:855-871)
for the keys of `target`, in order: a key in both merges recursively for two
dictionaries, takes the deduplicated union for two lists, and otherwise
keeps the target's value; a target-only key keeps the target's value. -/
def deep_merge_go : PyDict → PyDict → PyDict
  | .nil, _ => .nil
  | .cons k tv tl, s =>
      .cons k
        (match s.lookup k with
         | some sv => merge_pair tv sv
         | Option.none => tv)
        (deep_merge_go tl s)

/-- Conflict resolution of `deep_merge` for one key present in both
dictionaries (client.py:858-867): `dict`+`dict` recurses, `list`+`list`
takes the set union, anything else keeps the target's value. -/
def merge_pair : PyVal → PyVal → PyVal
  | .dict td, .dict sd => .dict ((deep_merge_go td sd).append (sd.filterNotIn td))
  | .list ta, .list sa => .list (pySetUnion ta sa)
  | tv, _ => tv
end

/-- `dict(deep_merge(target, source))` (client.py:855-871): the merged
entries for the target's keys followed by the source-only entries.
CPython iterates `set(target.keys()).union(source.keys())` in unspecified
order; the model fixes target-order-then-source-order, and every theorem
about the result goes through `PyDict.lookup`. -/
def deep_merge (t s : PyDict) : PyDict :=
  (deep_merge_go t s).append (s.filterNotIn t)

/-- The accumulator flowing through `reduce(deep_merge, branches)`: the
first branch enters as the plain dictionary it is, but every application of
`deep_merge` returns a *generator* (it is a generator function), so from the
second application on the accumulator is a generator, not a dictionary. -/
inductive Red where
  | dictv (d : PyDict)
  | genv (g : PyDict)
  deriving Repr, DecidableEq

/-- One step of `reduce(deep_merge, ...)`: `deep_merge(acc, b)` immediately
evaluates `set(target.keys())` only when the generator is consumed, but the
consuming `dict(...)` raises `AttributeError` all the same once the
accumulator is a generator (generators have no `.keys()`); a non-dictionary
branch fails the same way on `source.keys()`. -/
def redStep (r : Red) (b : PyVal) : Except PyErr Red :=
  match r, b with
  | .dictv d, .dict s => .ok (.genv (deep_merge d s))
  | .genv _, _ => .error (.attributeError "'generator' object has no attribute 'keys'")
  | .dictv _, _ => .error (.attributeError "'object' has no attribute 'keys'")

/-- Left fold of `redStep` over the remaining branches. -/
def redFold : Red → PyList → Except PyErr Red
  | r, .nil => .ok r
  | r, .cons b tl => do redFold (← redStep r b) tl

/-- `dict(reduce(deep_merge, branches))` (client.py:819-821): a single
branch is copied, two branches merge, three or more branches crash because
the second `deep_merge` application receives a generator. -/
def mergeAllOfList (branches : PyList) : Except PyErr PyDict :=
  match branches with
  | .nil => .error (.typeError "reduce() of empty iterable with no initial value")
  | .cons b rest => do
      let r0 ← match b with
        | .dict d => .ok (Red.dictv d)
        | _ => .error (.typeError "cannot convert to a dictionary")
      let r ← redFold r0 rest
      .ok (match r with | .dictv d => d | .genv g => g)

/-- `_normalize_node(node)` (client.py:817-822): when the node declares
`allOf`, pop it, fold the branches with `deep_merge` and copy the merged
entries into the node without replacing existing keys. -/
def _normalize_node (node : PyDict) : Except PyErr PyDict :=
  match node.lookup "allOf" with
  | some (.list branches) => do
      let merged ← mergeAllOfList branches
      .ok (update_dict_no_replace (node.erase "allOf") merged)
  | some _ =>
      -- a non-list `allOf` also crashes in CPython (`reduce` over a non-list
      -- either raises or feeds non-mappings into `deep_merge`); the model
      -- collapses those ill-typed shapes into one `TypeError`
      .error (.typeError "reduce() argument 2 must support iteration")
  | Option.none => .ok node

mutual
/-- `_do_resolve(node)` inside `_resolve_refs` (client.py:799-812),
parameterized by the external `jsonschema.RefResolver` collaborator
`resolver`: a mapping with a `$ref` key is replaced by the resolver's
target; any other mapping has its values resolved recursively and is then
normalized by `_normalize_node` — bottom-up, so nested `allOf` nodes are
merged before their parent; lists resolve element-wise; scalars pass
through. -/
def _do_resolve (resolver : PyVal → Except PyErr PyVal) : PyVal → Except PyErr PyVal
  | .dict d =>
      match d.lookup "$ref" with
      | some r => resolver r
      | Option.none => do
          let d1 ← _do_resolve_dict resolver d
          let d2 ← _normalize_node d1
          .ok (.dict d2)
  | .list xs => do
      let xs1 ← _do_resolve_list resolver xs
      .ok (.list xs1)
  | v => .ok v

/-- Element-wise resolution of a list node. -/
def _do_resolve_list (resolver : PyVal → Except PyErr PyVal) :
    PyList → Except PyErr PyList
  | .nil => .ok .nil
  | .cons v tl => do
      let v1 ← _do_resolve resolver v
      let tl1 ← _do_resolve_list resolver tl
      .ok (.cons v1 tl1)

/-- Value-wise resolution of a mapping node (`node[k] = _do_resolve(v)`). -/
def _do_resolve_dict (resolver : PyVal → Except PyErr PyVal) :
    PyDict → Except PyErr PyDict
  | .nil => .ok .nil
  | .cons k v tl => do
      let v1 ← _do_resolve resolver v
      let tl1 ← _do_resolve_dict resolver tl
      .ok (.cons k v1 tl1)
end

/-- `OperationResponse` state (client.py:137-146): the schema of the last
2xx response with content (class default `{}`), and the response mapping
after its construction-time `content` pops. -/
structure OperationResponse where
  _response_schema : PyVal
  _schema : PyDict
  deriving Repr, DecidableEq

/-- `OperationResponse._add_response(content)` (client.py:148-164): a falsy
content is skipped; otherwise only the first content type is kept
(unsupported ones merely log a warning), a falsy content-type schema is
skipped, and otherwise `self._response_schema` becomes its `schema` entry. -/
def addResponseSchema (content : PyVal) (acc : PyVal) : Except PyErr PyVal :=
  if ¬ truthy content then .ok acc
  else match content with
    | .dict (.cons _ cts _) =>
        if ¬ truthy cts then .ok acc
        else match cts with
          | .dict ctsd => .ok ((ctsd.lookup "schema").getD .none)
          | _ => .error (.attributeError "'object' has no attribute 'get'")
    | _ => .error (.attributeError "'object' has no attribute 'items'")

/-- The `for r_code, r_schema in schema.items()` loop of
`OperationResponse.__init__` (client.py:142-144): 2xx entries (`r_code[0]`,
an `IndexError` on an empty code) have their `content` popped and fed to
`_add_response`; the loop returns the mutated mapping and the accumulated
response schema. -/
def respGo : PyDict → PyVal → Except PyErr (PyDict × PyVal)
  | .nil, acc => .ok (.nil, acc)
  | .cons code rs tl, acc =>
      match code.data with
      | [] => .error (.indexError "string index out of range")
      | c :: _ =>
          if c = '2' then do
            let rsd ← match rs with
              | .dict d => .ok d
              | _ => .error (.attributeError "'object' has no attribute 'pop'")
            let (contentOpt, rsd1) := rsd.pop "content"
            let acc1 ← addResponseSchema (contentOpt.getD .none) acc
            let (tl1, acc2) ← respGo tl acc1
            .ok (.cons code (.dict rsd1) tl1, acc2)
          else do
            let (tl1, acc1) ← respGo tl acc
            .ok (.cons code rs tl1, acc1)

/-- `OperationResponse.__init__(schema)` (client.py:140-146): iterate the
response mapping (an `AttributeError` when it is `None` or not a mapping,
e.g. for an operation without `responses`). -/
def mkOperationResponse (schema : PyVal) : Except PyErr OperationResponse := do
  let d ← match schema with
    | .dict d => .ok d
    | _ => .error (.attributeError "'NoneType' object has no attribute 'items'")
  let (d1, acc) ← respGo d (.dict .nil)
  .ok { _response_schema := acc, _schema := d1 }

/-- `Operation` state (client.py:452-478) minus the collaborators (session,
server) that the indexed claims do not touch; `_spec` is the operation spec
after the construction-time pops. -/
structure Operation where
  _path : String
  _params : List PathParameter
  _summary : PyVal
  _description : PyVal
  _method : String
  _spec : PyDict
  _body : Option RequestBody
  _response : OperationResponse
  _operation_id : PyVal
  deriving Repr, DecidableEq

/-- `Client._initalize_request_body(body_spec)` (client.py:748-765): `None`
for a falsy spec; otherwise pop `required`/`description`, then pop
`content` and register every content-type variant, popping its mandatory
`schema` (a `KeyError` when absent) and optional `x-alertlogic-schema`. -/
def _initalize_request_body (body_spec : PyVal) : Except PyErr (Option RequestBody) :=
  if ¬ truthy body_spec then .ok Option.none
  else match body_spec with
    | .dict d => do
        let (reqOpt, d1) := d.pop "required"
        let (descOpt, d2) := d1.pop "description"
        let (contentOpt, _) := d2.pop "content"
        let rb0 : RequestBody :=
          { _required := reqOpt.getD (.bool false)
            _description := descOpt.getD .none
            _content := [] }
        let contentD ← match contentOpt.getD (.dict .nil) with
          | .dict cd => .ok cd
          | _ => .error (.attributeError "'object' has no attribute 'items'")
        let rb ← addContents rb0 contentD
        .ok (some rb)
    | _ => .error (.attributeError "'object' has no attribute 'pop'")
where
  /-- The `for content_type, content_schema in content.items()` loop. -/
  addContents : RequestBody → PyDict → Except PyErr RequestBody
  | rb, .nil => .ok rb
  | rb, .cons ct cs tl => do
      let csd ← match cs with
        | .dict x => .ok x
        | _ => .error (.attributeError "'object' has no attribute 'pop'")
      let (schemaOpt, csd1) := csd.pop "schema"
      let schema ← match schemaOpt with
        | some s => .ok s
        | Option.none => .error (.keyError "schema")
      let (alOpt, _) := csd1.pop "x-alertlogic-schema"
      let rb1 ← rb.add_content ct schema (alOpt.getD (.dict .nil))
      addContents rb1 tl

/-- Build the `PathParameter` list of one operation
(`op_spec.get("parameters", [])`, client.py:720-723). -/
def mkParams : PyList → Except PyErr (List PathParameter)
  | .nil => .ok []
  | .cons s tl => do
      let sd ← match s with
        | .dict d => .ok d
        | _ => .error (.typeError "'object' is not subscriptable")
      let p ← mkPathParameter sd
      let ps ← mkParams tl
      .ok (p :: ps)

/-- The operation index: operation id → `Operation`, keyed by the raw id
value like the Python `self._operations` dictionary. -/
abbrev OpIndex := List (PyVal × Operation)

/-- `operation_id in self._operations`. -/
def opsContains (ops : OpIndex) (k : PyVal) : Bool :=
  match ops with
  | [] => false
  | (k', _) :: tl => k' = k || opsContains tl k

/-- The per-method body of `Client._initialize_operations`
(client.py:703-746): read `operationId`, pop `summary` and `description`,
skip the entry (with a warning) when the id is falsy, raise
`AlmdrlibValueError(f"Duplication {operation_id} specified for {name} API")`
when the id is already indexed, then build parameters, request body and
response and append the `Operation`. -/
def indexMethod (name : String) (ops : OpIndex) (path : String)
    (method : String) (op_spec : PyVal) : Except PyErr OpIndex := do
  let opd ← match op_spec with
    | .dict d => .ok d
    | _ => .error (.attributeError "'object' has no attribute 'get'")
  let operation_id := (opd.lookup "operationId").getD .none
  let (summaryOpt, opd1) := opd.pop "summary"
  let (descOpt, opd2) := opd1.pop "description"
  if ¬ truthy operation_id then .ok ops
  else if opsContains ops operation_id then
    .error (.almdrlibValueError
      ("Duplication " ++ pyStr operation_id ++ " specified for " ++ name ++ " API"))
  else do
    let paramsList ← match (opd2.lookup "parameters").getD (.list .nil) with
      | .list l => .ok l
      | _ => .error (.typeError "'object' is not iterable")
    let params ← mkParams paramsList
    let (bodySpecOpt, opd3) := opd2.pop "requestBody"
    let body ← _initalize_request_body (bodySpecOpt.getD .none)
    let (respOpt, opd4) := opd3.pop "responses"
    let response ← mkOperationResponse (respOpt.getD .none)
    .ok (ops ++ [(operation_id,
      { _path := path
        _params := params
        _summary := summaryOpt.getD (.str "")
        _description := descOpt.getD (.str "")
        _method := method
        _spec := opd4
        _body := body
        _response := response
        _operation_id := operation_id })])

/-- The nested `for path ... for method ...` loops of
`Client._initialize_operations` (client.py:700-746), over the client's
`paths` mapping (path → method → operation spec). -/
def _initialize_operations (name : String) (paths : PyDict) :
    Except PyErr OpIndex :=
  go paths []
where
  /-- Outer loop over paths. -/
  go : PyDict → OpIndex → Except PyErr OpIndex
  | .nil, ops => .ok ops
  | .cons path path_spec tl, ops => do
      let psd ← match path_spec with
        | .dict d => .ok d
        | _ => .error (.attributeError "'object' has no attribute 'items'")
      let ops1 ← goMethods path psd ops
      go tl ops1
  /-- Inner loop over the methods of one path. -/
  goMethods : String → PyDict → OpIndex → Except PyErr OpIndex
  | _, .nil, ops => .ok ops
  | path, .cons method op_spec tl, ops => do
      let ops1 ← indexMethod name ops path method op_spec
      goMethods path tl ops1

/-- Ascending insertion of one binding for `sortByKey`. -/
def insertSorted (k : String) (v : PyVal) : PyDict → PyDict
  | .nil => .cons k v .nil
  | .cons k' v' tl =>
      if k < k' then .cons k v (.cons k' v' tl) else .cons k' v' (insertSorted k v tl)

/-- `dict(sorted(d.items()))` (client.py:528): sort bindings by key (keys
are unique, so the tuple comparison never reaches the values). -/
def sortByKey : PyDict → PyDict
  | .nil => .nil
  | .cons k v tl => insertSorted k v (sortByKey tl)

/-- The `for param in self.params:
params_schema.update({param.name: param.schema})` loop (client.py:517-518). -/
def paramsSchemaGo : List PathParameter → PyDict → Except PyErr PyDict
  | [], acc => .ok acc
  | p :: tl, acc => do
      let ps ← p.schemaProp
      paramsSchemaGo tl (acc.set p._name (.dict ps))

/-- `Operation.get_schema()` (client.py:511-536): operation id and
description, the per-parameter schemas merged with the body's property
schemas (`get_schema()` of this revision's `RequestBody` always returns a
`properties` mapping, so the `if CONTENT in schema` branch is modelled but
dead), sorted by name, then the response schema and the (empty) exception
map. -/
def Operation.getSchemaM (op : Operation) : Except PyErr PyVal := do
  let result0 : PyDict :=
    .ofList [("operationId", op._operation_id), ("description", op._description)]
  let params_schema ← paramsSchemaGo op._params .nil
  let (result1, params_schema1) ← match op._body with
    | Option.none => .ok (result0, params_schema)
    | some rb => do
        let schema ← rb.get_schemaM
        if schema.contains "content" then .ok (result0.update schema, params_schema)
        else match (schema.lookup "properties").getD .none with
          | .dict pd => .ok (result0, params_schema.update pd)
          | _ => .error (.typeError "'object' is not iterable")
  let result2 := result1.set "parameters" (.dict (sortByKey params_schema1))
  let result3 := (result2.set "response" op._response._response_schema).set
    "exceptions" (.dict .nil)
  .ok (.dict result3)

/-- `Operation.get_schema()` in state-threading form: the method body
performs no assignment to `self` or to any reachable object (it only reads
and builds fresh dictionaries), so the faithful state-passing translation
returns the operation unchanged alongside the descriptor. -/
def Operation.getSchemaT (op : Operation) : Except PyErr PyVal × Operation :=
  (op.getSchemaM, op)

/-- The `for param in self._params: param.serialize(...)` loop of
`Operation._gen_call` (client.py:549-550), threading the buckets, the
remaining keyword arguments and the (possibly default-cache-updated)
parameters. -/
def serializeParams : List PathParameter → (String → PyVal) → Buckets → PyDict →
    Except PyErr (Buckets × PyDict × List PathParameter)
  | [], _, b, kw => .ok (b, kw, [])
  | p :: tl, gd, b, kw => do
      let (b1, kw1, p1) ← p.serialize gd b kw
      let (b2, kw2, tl1) ← serializeParams tl gd b1 kw1
      .ok (b2, kw2, p1 :: tl1)

/-! ### Fixtures shared by the concrete evaluations below -/

/-- Empty buckets, as built at the top of `Operation._gen_call`. -/
def bEmpty : Buckets := ⟨.nil, .nil, .nil, .nil⟩

/-- A session collaborator with no defaults (`get_default` returns `None`). -/
def gdNone : String → PyVal := fun _ => .none

/-- The value stored in the query bucket by a parameter-serialization run. -/
def queryValOf (r : Except PyErr (Buckets × PyDict × PathParameter))
    (k : String) : Option PyVal :=
  match r with
  | .ok (b, _, _) => b.query_params.lookup k
  | .error _ => Option.none

/-- An object-typed query parameter declared `style=form, explode=false`. -/
def c1spec : PyDict := .ofList [("in", .str "query"), ("name", .str "qp"),
  ("required", .bool true), ("style", .str "form"), ("explode", .bool false),
  ("schema", .dict (.ofList [("type", .str "object")]))]

/-- The same parameter with `explode=true`. -/
def c1specExplode : PyDict := .ofList [("in", .str "query"), ("name", .str "qp"),
  ("required", .bool true), ("style", .str "form"), ("explode", .bool true),
  ("schema", .dict (.ofList [("type", .str "object")]))]

/-- Serialize the mapping `{a: 1, b: 2}` through a parameter built from
`spec` with no session defaults and empty buckets. -/
def c1run (spec : PyDict) : Except PyErr (Buckets × PyDict × PathParameter) := do
  let p ← mkPathParameter spec
  p.serialize gdNone bEmpty
    (.ofList [("qp", .dict (.ofList [("a", .int 1), ("b", .int 2)]))])

/-! ### C1 -/

/-- C1, counterexample.  For the object-typed query parameter declared
`style=form, explode=false`, serializing `{a: 1, b: 2}` stores the Python
`str()` of the mapping, `"{'a': 1, 'b': 2}"`, under the wire name — not the
claimed comma-joined literal `"a,1,b,2"`; and with `explode=true` the output
is the very same string, not the raw mapping forwarded unchanged. -/
theorem C1_counterexample :
    queryValOf (c1run c1spec) "qp" = some (.str "\x7b'a': 1, 'b': 2\x7d") ∧
    queryValOf (c1run c1spec) "qp" ≠ some (.str "a,1,b,2") ∧
    queryValOf (c1run c1specExplode) "qp" = some (.str "\x7b'a': 1, 'b': 2\x7d") ∧
    queryValOf (c1run c1specExplode) "qp" ≠
      some (.dict (.ofList [("a", .int 1), ("b", .int 2)])) :=
  ⟨rfl, by decide, rfl, by decide⟩

/-- C1, amended.  For every object-typed query parameter, the declared
style and explode flag are never consulted: `PathParameter.serialize`
stores `str(value)` — the Python string form of the mapping — under the
parameter's wire name in the query bucket. -/
theorem C1_amended_object_query_str (p : PathParameter) (gd : String → PyVal)
    (b : Buckets) (kwargs : PyDict) (v : PyVal)
    (hdt : p._dataype = .str "object") (hin : p._in = .str "query")
    (hv : kwargs.lookup p._name = some v) :
    p.serialize gd b kwargs =
      .ok ({ b with query_params := b.query_params.set p._schema_name (.str (pyStr v)) },
           kwargs.erase p._name, (p.defaultP gd).2) := by
  have hc : kwargs.contains p._name = true := by simp [PyDict.contains, hv]
  simp [PathParameter.serialize, hc, PathParameter.serializeStore, PyDict.pop, hv,
        serialize_value, hdt, hin]

/-- C1, witness: the amended theorem applied to the `style=form,
explode=false` fixture and the mapping `{a: 1, b: 2}`. -/
theorem C1_amended_object_query_str_witness :
    PathParameter.serialize
      { _in := .str "query", _name := "qp", _schema_name := "qp",
        _required := .bool true, _description := .str "",
        _dataype := .str "object", _spec := c1spec, _default := .none }
      gdNone bEmpty (.ofList [("qp", .dict (.ofList [("a", .int 1), ("b", .int 2)]))]) =
      .ok ({ bEmpty with query_params := PyDict.ofList [("qp", .str "\x7b'a': 1, 'b': 2\x7d")] },
           .nil,
           { _in := .str "query", _name := "qp", _schema_name := "qp",
             _required := .bool true, _description := .str "",
             _dataype := .str "object", _spec := c1spec, _default := .none }) :=
  C1_amended_object_query_str _ _ _ _ (.dict (.ofList [("a", .int 1), ("b", .int 2)]))
    rfl rfl rfl

/-! ### C2 -/

/-- An array-typed query parameter declared `style=pipeDelimited,
explode=false`. -/
def c2spec : PyDict := .ofList [("in", .str "query"), ("name", .str "qp"),
  ("required", .bool true), ("style", .str "pipeDelimited"), ("explode", .bool false),
  ("schema", .dict (.ofList [("type", .str "array")]))]

/-- Serialize the list `[1, 2, 3]` through a parameter built from `spec`. -/
def c2run (spec : PyDict) : Except PyErr (Buckets × PyDict × PathParameter) := do
  let p ← mkPathParameter spec
  p.serialize gdNone bEmpty
    (.ofList [("qp", .list (.ofList [.int 1, .int 2, .int 3]))])

/-- C2, counterexample.  For the array-typed query parameter declared
`style=pipeDelimited, explode=false`, serializing `[1, 2, 3]` stores the
Python `str()` of the list, `"[1, 2, 3]"`, not the claimed pipe-joined
`"1|2|3"` (nor a comma- or space-joined form for the other styles, since
the style never enters `serialize_value`). -/
theorem C2_counterexample :
    queryValOf (c2run c2spec) "qp" = some (.str "[1, 2, 3]") ∧
    queryValOf (c2run c2spec) "qp" ≠ some (.str "1|2|3") :=
  ⟨rfl, by decide⟩

/-- C2, amended.  For every array-typed query parameter, the declared style
and explode flag are never consulted: `PathParameter.serialize` stores
`str(value)` — the Python string form of the list — under the parameter's
wire name in the query bucket. -/
theorem C2_amended_array_query_str (p : PathParameter) (gd : String → PyVal)
    (b : Buckets) (kwargs : PyDict) (v : PyVal)
    (hdt : p._dataype = .str "array") (hin : p._in = .str "query")
    (hv : kwargs.lookup p._name = some v) :
    p.serialize gd b kwargs =
      .ok ({ b with query_params := b.query_params.set p._schema_name (.str (pyStr v)) },
           kwargs.erase p._name, (p.defaultP gd).2) := by
  have hc : kwargs.contains p._name = true := by simp [PyDict.contains, hv]
  simp [PathParameter.serialize, hc, PathParameter.serializeStore, PyDict.pop, hv,
        serialize_value, hdt, hin]

/-- C2, witness: the amended theorem applied to the `pipeDelimited` fixture
and the list `[1, 2, 3]`. -/
theorem C2_amended_array_query_str_witness :
    PathParameter.serialize
      { _in := .str "query", _name := "qp", _schema_name := "qp",
        _required := .bool true, _description := .str "",
        _dataype := .str "array", _spec := c2spec, _default := .none }
      gdNone bEmpty (.ofList [("qp", .list (.ofList [.int 1, .int 2, .int 3]))]) =
      .ok ({ bEmpty with query_params := PyDict.ofList [("qp", .str "[1, 2, 3]")] },
           .nil,
           { _in := .str "query", _name := "qp", _schema_name := "qp",
             _required := .bool true, _description := .str "",
             _dataype := .str "array", _spec := c2spec, _default := .none }) :=
  C2_amended_array_query_str _ _ _ _ (.list (.ofList [.int 1, .int 2, .int 3]))
    rfl rfl rfl

/-! ### C3 / C10 -/

/-- The bucket placement performed by lines 440-447 of
`PathParameter.serialize`: store `v` under the wire name `k` in the bucket
selected by the declared location, leaving the other three untouched. -/
def bucketPlace (b : Buckets) (loc : PyVal) (k : String) (v : PyVal) : Buckets :=
  if loc = .str "path" then { b with path_params := b.path_params.set k v }
  else if loc = .str "query" then { b with query_params := b.query_params.set k v }
  else if loc = .str "header" then { b with headers := b.headers.set k v }
  else if loc = .str "cookie" then { b with cookies := b.cookies.set k v }
  else b

/-- Helper: an absent parameter whose session default is falsy raises
`ValueError(f"'{self._name}' is required")` when required. -/
theorem serialize_absent_falsy (p : PathParameter) (gd : String → PyVal)
    (b : Buckets) (kwargs : PyDict)
    (hcont : kwargs.contains p._name = false) (hd : p._default = .none)
    (hfalsy : truthy (gd p._name) = false) (hreq : truthy p._required = true) :
    p.serialize gd b kwargs =
      .error (.valueError ("'" ++ p._name ++ "' is required")) := by
  simp [PathParameter.serialize, hcont, PathParameter.defaultP, hd, hfalsy, hreq]

/-- Helper: line 436-449 of `PathParameter.serialize` factored through
`bucketPlace`. -/
theorem serializeStore_eq (p : PathParameter) (gd : String → PyVal)
    (b : Buckets) (kwargs : PyDict) :
    p.serializeStore gd b kwargs =
      (bucketPlace b p._in p._schema_name
         (serialize_value p._dataype ((kwargs.pop p._name).1.getD (p.defaultP gd).1)),
       (kwargs.pop p._name).2, (p.defaultP gd).2) := by
  unfold PathParameter.serializeStore bucketPlace
  by_cases h1 : p._in = .str "path" <;> by_cases h2 : p._in = .str "query" <;>
    by_cases h3 : p._in = .str "header" <;> by_cases h4 : p._in = .str "cookie" <;>
    simp [h1, h2, h3, h4]

/-- Helper: a parameter present in `kwargs` serializes successfully into
the bucket selected by its declared location, keyed by the wire name. -/
theorem serialize_present (p : PathParameter) (gd : String → PyVal)
    (b : Buckets) (kwargs : PyDict) (v : PyVal)
    (hv : kwargs.lookup p._name = some v) :
    p.serialize gd b kwargs =
      .ok (bucketPlace b p._in p._schema_name (serialize_value p._dataype v),
           kwargs.erase p._name, (p.defaultP gd).2) := by
  have hc : kwargs.contains p._name = true := by simp [PyDict.contains, hv]
  simp [PathParameter.serialize, hc, serializeStore_eq, PyDict.pop, hv]

/-- C3.  For a parameter built from a spec whose wire name is `wire` and
which is required: the caller-facing keyword name is the wire name with
hyphens replaced by underscores; invoking serialization with the keyword
omitted and the session default absent raises the missing-required-parameter
`ValueError` (the revision's `MissingParameterError`); and with the keyword
supplied the serialized value lands in exactly the bucket selected by the
declared `in` location, keyed by the original wire name. -/
theorem C3_required_param_buckets (spec : PyDict) (wire : String)
    (p : PathParameter) (gd : String → PyVal) (b : Buckets) (kwargs : PyDict)
    (hmk : mkPathParameter spec = .ok p)
    (hwire : spec.lookup "name" = some (.str wire))
    (hreq : truthy p._required = true) :
    (p._name = underscoreName wire ∧ p._schema_name = wire) ∧
    (kwargs.contains p._name = false → truthy (gd p._name) = false →
      p.serialize gd b kwargs =
        .error (.valueError ("'" ++ p._name ++ "' is required"))) ∧
    (∀ v, kwargs.lookup p._name = some v →
      p.serialize gd b kwargs =
        .ok (bucketPlace b p._in p._schema_name (serialize_value p._dataype v),
             kwargs.erase p._name, (p.defaultP gd).2)) := by
  obtain ⟨inv, hin⟩ : ∃ inv, spec.lookup "in" = some inv := by
    cases h : spec.lookup "in" with
    | none => simp [mkPathParameter, h] at hmk
    | some inv => exact ⟨inv, rfl⟩
  have hp : p = mkParamRecord spec inv wire := by
    simp [mkPathParameter, hin, hwire] at hmk
    exact hmk.symm
  refine ⟨⟨by simp [hp, mkParamRecord], by simp [hp, mkParamRecord]⟩, ?_, ?_⟩
  · intro hcont hfalsy
    exact serialize_absent_falsy p gd b kwargs hcont (by simp [hp, mkParamRecord])
      hfalsy hreq
  · intro v hv
    exact serialize_present p gd b kwargs v hv

/-- The required path parameter `account-id` used as the C3 witness (note
the hyphenated wire name). -/
def c3spec : PyDict := .ofList [("in", .str "path"), ("name", .str "account-id"),
  ("required", .bool true), ("schema", .dict (.ofList [("type", .str "string")]))]

/-- The parameter `mkPathParameter` builds from `c3spec`. -/
def c3param : PathParameter :=
  { _in := .str "path", _name := "account_id", _schema_name := "account-id",
    _required := .bool true, _description := .str "",
    _dataype := .str "string", _spec := c3spec, _default := .none }

/-- C3, witness: for the required hyphen-named path parameter, the keyword
name is `account_id`; omitting it (with no session default) raises the
missing-parameter error, and supplying `account_id="5"` places the string
`"5"` in the path bucket under the wire name `account-id`. -/
theorem C3_required_param_buckets_witness :
    c3param._name = underscoreName "account-id" ∧
    PathParameter.serialize c3param gdNone bEmpty .nil =
      .error (.valueError "'account_id' is required") ∧
    PathParameter.serialize c3param gdNone bEmpty
        (.ofList [("account_id", .str "5")]) =
      .ok ({ bEmpty with path_params := PyDict.ofList [("account-id", .str "5")] },
           .nil, c3param) := by
  have h := C3_required_param_buckets c3spec "account-id" c3param gdNone bEmpty
    .nil rfl rfl rfl
  have h2 := C3_required_param_buckets c3spec "account-id" c3param gdNone bEmpty
    (.ofList [("account_id", .str "5")]) rfl rfl rfl
  refine ⟨h.1.1, h.2.1 rfl rfl, ?_⟩
  have := h2.2.2 (.str "5") rfl
  simpa [bucketPlace, serialize_value, PathParameter.defaultP, bEmpty] using this

/-- C10.  A required parameter omitted by the caller whose session
collaborator supplies a *falsy* default (`0`, `""`, `False`, an empty list
or mapping, or `None`) raises the missing-required-parameter error all the
same: the guard `if self._name not in kwargs and not self.default:` tests
the truthiness of the fetched default, not its existence. -/
theorem C10_falsy_default_raises (p : PathParameter) (gd : String → PyVal)
    (b : Buckets) (kwargs : PyDict)
    (hcont : kwargs.contains p._name = false) (hd : p._default = .none)
    (hfalsy : truthy (gd p._name) = false) (hreq : truthy p._required = true) :
    p.serialize gd b kwargs =
      .error (.valueError ("'" ++ p._name ++ "' is required")) :=
  serialize_absent_falsy p gd b kwargs hcont hd hfalsy hreq

/-- C10, witness: the session collaborator answers the integer `0` (falsy
but present) for the required parameter, and serialization still fails with
the missing-parameter error. -/
theorem C10_falsy_default_raises_witness :
    PathParameter.serialize c3param (fun _ => .int 0) bEmpty .nil =
      .error (.valueError "'account_id' is required") :=
  C10_falsy_default_raises c3param (fun _ => .int 0) bEmpty .nil rfl rfl rfl rfl

/-! ### C5 -/

/-- C5.  Content-type resolution of `RequestBody.serialize`
(client.py:341-356): (a) an explicit selector in the headers uses that
registered variant; (b) with no selector and exactly one registered variant,
that variant is chosen and its content type is recorded in the request
headers; (c) with no selector and more than one variant, serialization
fails with the `AlmdrlibValueError` demanding a `content_type` argument
(the revision's `ContentTypeAmbiguityError`); and (d) a non-binary simple
variant such as `text/plain` produces the raw value as the body, not a
JSON encoding. -/
theorem C5_content_type_selection (rb : RequestBody) (headers kwargs : PyDict) :
    (∀ ct bp, headers.lookup "content-type" = some (.str ct) →
      lookupCT rb._content ct = some bp →
      rb.serialize headers kwargs =
        (bp.serialize kwargs).map (fun kw => (headers, kw))) ∧
    (∀ ct bp, headers.lookup "content-type" = Option.none →
      rb._content = [(ct, bp)] →
      rb.serialize headers kwargs =
        (bp.serialize kwargs).map
          (fun kw => (headers.set "content-type" (.str ct), kw))) ∧
    (headers.lookup "content-type" = Option.none → 2 ≤ rb._content.length →
      rb.serialize headers kwargs =
        .error (.almdrlibValueError "'content_type'parameter is required.")) ∧
    (∀ (name : String) (schema : PyDict) (fmt req v : PyVal) (kw : PyDict),
      fmt ≠ .str "binary" → kw.lookup name = some v →
      RequestBodyParameter.serialize (.simpleP name schema fmt req) kw =
        .ok ((kw.erase name).set "data" v)) := by
  refine ⟨?_, ?_, ?_, ?_⟩
  · intro ct bp hh hct
    cases hs : bp.serialize kwargs <;>
      simp [RequestBody.serialize, hh, hct, hs, Except.map, bind, Except.bind]
  · intro ct bp hh hc
    cases hs : bp.serialize kwargs <;>
      simp [RequestBody.serialize, hh, hc, hs, Except.map, bind, Except.bind]
  · intro hh hlen
    match hc : rb._content with
    | [] => rw [hc] at hlen; simp at hlen
    | [(ct, bp)] => rw [hc] at hlen; simp at hlen
    | (ct1, bp1) :: (ct2, bp2) :: tl =>
        simp [RequestBody.serialize, hh, hc]
  · intro name schema fmt req v kw hfmt hv
    simp [RequestBodyParameter.serialize, PyDict.pop, hv, hfmt]

/-- The two-content-type request body of the C5 scenario, built through
`add_content`: `application/json` (an object schema) and `text/plain` (a
string schema). -/
def c5run : Except PyErr RequestBody := do
  let rb0 : RequestBody := { _required := .bool false, _description := .none, _content := [] }
  let rb1 ← rb0.add_content "application/json"
    (.dict (.ofList [("type", .str "object"),
      ("properties", .dict (.ofList [("msg", .dict (.ofList [("type", .str "string")]))]))]))
    (.dict .nil)
  rb1.add_content "text/plain" (.dict (.ofList [("type", .str "string")])) (.dict .nil)

/-- The request body `c5run` evaluates to. -/
def c5rb : RequestBody :=
  { _required := .bool false, _description := .none,
    _content := [
      ("application/json",
        .objectP "data"
          (.ofList [("type", .str "object"),
            ("properties", .dict (.ofList [("msg", .dict (.ofList [("type", .str "string")]))]))])
          .none
          (.dict (.ofList [("msg", .dict (.ofList [("type", .str "string")]))]))
          (.list .nil) (.bool false)),
      ("text/plain",
        .simpleP "data" (.ofList [("type", .str "string")]) .none (.bool false))] }

/-- C5, witness: for the two-variant body, serializing with no
`content-type` header raises the disambiguation error, while selecting
`text/plain` succeeds and produces the raw (non-JSON-encoded) string
`"hello"` as the body. -/
theorem C5_content_type_selection_witness :
    c5run = .ok c5rb ∧
    RequestBody.serialize c5rb .nil (.ofList [("data", .str "hello")]) =
      .error (.almdrlibValueError "'content_type'parameter is required.") ∧
    RequestBody.serialize c5rb (.ofList [("content-type", .str "text/plain")])
        (.ofList [("data", .str "hello")]) =
      .ok (.ofList [("content-type", .str "text/plain")],
           .ofList [("data", .str "hello")]) ∧
    PyVal.str "hello" ≠ .str (jsonDumps (.str "hello")) := by
  refine ⟨rfl, ?_, ?_, by decide⟩
  · exact (C5_content_type_selection c5rb .nil
      (.ofList [("data", .str "hello")])).2.2.1 rfl (by decide)
  · have h := (C5_content_type_selection c5rb
      (.ofList [("content-type", .str "text/plain")])
      (.ofList [("data", .str "hello")])).1 "text/plain"
      (.simpleP "data" (.ofList [("type", .str "string")]) .none (.bool false))
      rfl rfl
    simpa using h

/-! ### C6 -/

/-- The C6 body schema: an object schema without its own `properties`, so
`_normalize_schema` wraps it as the single property `data`. -/
def c6schema : PyVal := .dict (.ofList [("type", .str "object")])

/-- Vendor schema naming the payload `data` and carrying the explode hint. -/
def c6alExp : PyVal := .dict (.ofList [("name", .str "data"),
  ("encoding", .dict (.ofList [("explode", .bool true)]))])

/-- Vendor schema naming the payload `data`, no explode hint. -/
def c6alNoExp : PyVal := .dict (.ofList [("name", .str "data")])

/-- Register the C6 schema under `application/json` with vendor schema `al`
and serialize the caller arguments `{data: v}` through the body. -/
def c6run (al : PyVal) (v : PyVal) : Except PyErr (PyDict × PyDict) := do
  let rb0 : RequestBody := { _required := .bool false, _description := .none, _content := [] }
  let rb ← rb0.add_content "application/json" c6schema al
  rb.serialize .nil (.ofList [("data", v)])

/-- C6, counterexample.  Without the explode hint, the caller arguments
`{data: {x: 1}}` serialize to the JSON body
`{"data": {"data": {"x": 1}}}` — the payload is nested under its own name
twice — not to the claimed `{"data": {"x": 1}}`. -/
theorem C6_counterexample :
    c6run c6alNoExp (.dict (.ofList [("x", .int 1)])) =
      .ok (.ofList [("content-type", .str "application/json")],
           .ofList [("data",
             .str "\x7b\"data\": \x7b\"data\": \x7b\"x\": 1\x7d\x7d\x7d")]) ∧
    ("\x7b\"data\": \x7b\"data\": \x7b\"x\": 1\x7d\x7d\x7d" : String) ≠
      "\x7b\"data\": \x7b\"x\": 1\x7d\x7d" :=
  ⟨rfl, by decide⟩

/-- C6, amended.  For the object body whose schema is wrapped under the
payload name `data`: with the vendor explode hint the caller arguments
`{data: v}` serialize to the top-level JSON body `json.dumps(v)` (as the
claim states); without the hint the same arguments serialize to
`{"data": {"data": v-json}}`, nesting the payload under its name twice,
because the non-explode branch wraps the already-named property map in the
payload name again. -/
theorem C6_explode_serialization (v : PyVal) :
    c6run c6alExp v =
      .ok (.ofList [("content-type", .str "application/json")],
           .ofList [("data", .str (jsonDumps v))]) ∧
    c6run c6alNoExp v =
      .ok (.ofList [("content-type", .str "application/json")],
           .ofList [("data", .str (jsonDumps
             (.dict (.ofList [("data", .dict (.ofList [("data", v)]))]))))]) :=
  ⟨rfl, rfl⟩

/-- Tail-recursion induction principle for `PyDict` (the `induction` tactic
cannot use the mutual recursor directly). -/
theorem pyDictTailInduction (P : PyDict → Prop) (h0 : P .nil)
    (h1 : ∀ k v tl, P tl → P (.cons k v tl)) : ∀ d, P d
  | .nil => h0
  | .cons k v tl => h1 k v tl (pyDictTailInduction P h0 h1 tl)

/-- Tail-recursion induction principle for `PyList`. -/
theorem pyListTailInduction (P : PyList → Prop) (h0 : P .nil)
    (h1 : ∀ v tl, P tl → P (.cons v tl)) : ∀ d, P d
  | .nil => h0
  | .cons v tl => h1 v tl (pyListTailInduction P h0 h1 tl)

/-! ### C7 -/

/-- No two entries of the operation index share an operation id. -/
def opsUnique (ops : OpIndex) : Prop :=
  ops.Pairwise (fun a b => a.1 ≠ b.1)

/-- A key reported absent by `opsContains` differs from every indexed key. -/
theorem opsContains_eq_false (ops : OpIndex) (k : PyVal)
    (h : opsContains ops k = false) : ∀ p ∈ ops, p.1 ≠ k := by
  induction ops with
  | nil => intro p hp; cases hp
  | cons hd tl ih =>
      simp [opsContains] at h
      intro p hp
      rcases List.mem_cons.mp hp with hp1 | hp1
      · subst hp1; exact h.1
      · exact ih h.2 p hp1

/-- `indexMethod` preserves uniqueness of the index: it appends only after
checking `operation_id in self._operations`. -/
theorem indexMethod_unique (name : String) (ops : OpIndex) (path method : String)
    (sp : PyVal) (ops' : OpIndex) (hu : opsUnique ops)
    (hok : indexMethod name ops path method sp = .ok ops') : opsUnique ops' := by
  unfold indexMethod at hok
  cases sp <;> simp [bind, Except.bind] at hok
  case dict opd =>
    repeat' split at hok
    all_goals cases hok
    · exact hu
    · rw [opsUnique, List.pairwise_append]
      refine ⟨hu, by simp, ?_⟩
      intro a ha b hb'
      simp at hb'
      rw [hb']
      refine opsContains_eq_false ops _ ?_ a ha
      simp_all

/-- The inner method loop preserves uniqueness. -/
theorem goMethods_unique (name path : String) (m : PyDict) (ops ops' : OpIndex)
    (hu : opsUnique ops)
    (hok : _initialize_operations.goMethods name path m ops = .ok ops') :
    opsUnique ops' := by
  induction m using pyDictTailInduction generalizing ops with
  | h0 => simp [_initialize_operations.goMethods] at hok; rw [← hok]; exact hu
  | h1 method sp tl ih =>
      simp [_initialize_operations.goMethods, bind, Except.bind] at hok
      cases him : indexMethod name ops path method sp <;> rw [him] at hok <;> simp at hok
      case ok ops1 =>
        exact ih ops1 (indexMethod_unique name ops path method sp ops1 hu him) hok

/-- The outer path loop preserves uniqueness. -/
theorem go_unique (name : String) (paths : PyDict) (ops ops' : OpIndex)
    (hu : opsUnique ops)
    (hok : _initialize_operations.go name paths ops = .ok ops') : opsUnique ops' := by
  induction paths using pyDictTailInduction generalizing ops with
  | h0 => simp [_initialize_operations.go] at hok; rw [← hok]; exact hu
  | h1 path psp tl ih =>
      simp [_initialize_operations.go, bind, Except.bind] at hok
      cases psp <;> simp at hok <;> try cases hok
      case dict psd =>
        cases hgm : _initialize_operations.goMethods name path psd ops <;>
          rw [hgm] at hok <;> simp at hok
        case ok ops1 =>
          exact ih ops1 (goMethods_unique name path psd ops ops1 hu hgm) hok

/-- Two path entries (different methods) declaring `operationId:
"getThing"`, each otherwise well-formed. -/
def c7paths : PyDict := .ofList [("/things", .dict (.ofList [
  ("get", .dict (.ofList [("operationId", .str "getThing"),
    ("responses", .dict (.ofList [("200", .dict .nil)]))])),
  ("post", .dict (.ofList [("operationId", .str "getThing"),
    ("responses", .dict (.ofList [("200", .dict .nil)]))]))]))]

/-- C7.  Duplicate operation ids are fatal at indexing time: (i) whenever
the id of a method entry is already indexed, `_initialize_operations`
raises `AlmdrlibValueError(f"Duplication {id} specified for {name} API")`
(the revision's `DuplicateOperationError`) instead of indexing the second
binding; (ii) a successfully built index never holds two entries with the
same id (nothing is silently overwritten — the index only ever appends);
and (iii) the concrete two-method scenario raises the duplication error for
`getThing`. -/
theorem C7_duplicate_operation_id :
    (∀ (name : String) (ops : OpIndex) (path method : String) (opd : PyDict),
      truthy ((opd.lookup "operationId").getD .none) = true →
      opsContains ops ((opd.lookup "operationId").getD .none) = true →
      indexMethod name ops path method (.dict opd) =
        .error (.almdrlibValueError ("Duplication " ++
          pyStr ((opd.lookup "operationId").getD .none) ++
          " specified for " ++ name ++ " API"))) ∧
    (∀ (name : String) (paths : PyDict) (ops : OpIndex),
      _initialize_operations name paths = .ok ops → opsUnique ops) ∧
    _initialize_operations "testapi" c7paths =
      .error (.almdrlibValueError "Duplication getThing specified for testapi API") := by
  refine ⟨?_, ?_, rfl⟩
  · intro name ops path method opd hid hdup
    unfold indexMethod
    simp [bind, Except.bind, hid, hdup]
  · intro name paths ops hok
    exact go_unique name paths [] ops (by simp [opsUnique]) hok

/-- C7, witness: with `getThing` already indexed, indexing a `post` entry
declaring the same id raises the duplication error; and the index built
from a single-entry path spec is duplicate-free. -/
theorem C7_duplicate_operation_id_witness :
    indexMethod "testapi"
      [(.str "getThing",
        { _path := "/things", _params := [], _summary := .str "",
          _description := .str "", _method := "get", _spec := .nil,
          _body := Option.none, _response := ⟨.dict .nil, .nil⟩,
          _operation_id := .str "getThing" })]
      "/things" "post" (.dict (.ofList [("operationId", .str "getThing")])) =
      .error (.almdrlibValueError "Duplication getThing specified for testapi API") :=
  (C7_duplicate_operation_id.1 "testapi" _ "/things" "post" _ rfl rfl)

/-! ### C4 -/

/-- Lookup distributes over the append of binding sequences. -/
theorem PyDict.lookup_append (a b : PyDict) (k : String) :
    (a.append b).lookup k =
      (match a.lookup k with
       | some v => some v
       | Option.none => b.lookup k) := by
  induction a using pyDictTailInduction with
  | h0 => simp [PyDict.append, PyDict.lookup]
  | h1 k' v tl ih =>
      by_cases h : k' = k <;> simp [PyDict.append, PyDict.lookup, h, ih]

/-- Lookup in the target-side half of `deep_merge`: every target key is
present, merged with the source value when the source has the key. -/
theorem lookup_deep_merge_go (t s : PyDict) (k : String) :
    (deep_merge_go t s).lookup k =
      (t.lookup k).map (fun tv =>
        match s.lookup k with
        | some sv => merge_pair tv sv
        | Option.none => tv) := by
  induction t using pyDictTailInduction with
  | h0 => simp [deep_merge_go, PyDict.lookup]
  | h1 k' tv tl ih =>
      by_cases h : k' = k <;> simp [deep_merge_go, PyDict.lookup, h, ih]

/-- Lookup in the source-only half of `deep_merge`. -/
theorem lookup_filterNotIn (s t : PyDict) (k : String) :
    (s.filterNotIn t).lookup k =
      (if t.contains k then Option.none else s.lookup k) := by
  induction s using pyDictTailInduction with
  | h0 => simp [PyDict.filterNotIn, PyDict.lookup]
  | h1 k' v tl ih =>
      by_cases h : k' = k
      · subst h
        by_cases hc : t.contains k' <;> simp [PyDict.filterNotIn, PyDict.lookup, hc, ih]
      · by_cases hc : t.contains k' <;> simp [PyDict.filterNotIn, PyDict.lookup, h, hc, ih]

/-- The key→value mapping `deep_merge` computes: for a key in both inputs
the values merge by `merge_pair` (dictionaries merge recursively, lists take
the set union, anything else keeps the target's — i.e. earliest-declared —
value); a key in only one input keeps that input's value. -/
theorem deep_merge_lookup (t s : PyDict) (k : String) :
    (deep_merge t s).lookup k =
      (match t.lookup k, s.lookup k with
       | some tv, some sv => some (merge_pair tv sv)
       | some tv, Option.none => some tv
       | Option.none, some sv => some sv
       | Option.none, Option.none => Option.none) := by
  rw [deep_merge, PyDict.lookup_append, lookup_deep_merge_go, lookup_filterNotIn]
  cases ht : t.lookup k <;> cases hs : s.lookup k <;>
    simp [PyDict.contains, ht, hs]

/-- The three-branch `allOf` node on which `reduce(deep_merge, ...)`
crashes. -/
def c4threeBranches : PyDict := .ofList [("allOf", .list (.ofList [
  .dict (.ofList [("a", .int 1)]),
  .dict (.ofList [("b", .int 2)]),
  .dict (.ofList [("c", .int 3)])]))]

/-- A two-branch `allOf` node exercising all three conflict rules. -/
def c4twoBranches : PyDict := .ofList [("allOf", .list (.ofList [
  .dict (.ofList [("s", .str "first"),
                  ("arr", .list (.ofList [.int 1, .int 2])),
                  ("obj", .dict (.ofList [("x", .int 1)]))]),
  .dict (.ofList [("s", .str "second"),
                  ("arr", .list (.ofList [.int 2, .int 3])),
                  ("obj", .dict (.ofList [("y", .int 2)]))])]))]

/-- A nested `allOf` inside the first branch of an outer `allOf`,
exercising the bottom-up resolution order of `_do_resolve`. -/
def c4nested : PyVal := .dict (.ofList [("allOf", .list (.ofList [
  .dict (.ofList [("a", .dict (.ofList [("allOf", .list (.ofList [
      .dict (.ofList [("m", .int 1)]),
      .dict (.ofList [("n", .int 2)])]))]))]),
  .dict (.ofList [("b", .int 2)])]))])

/-- C4.  What `allOf` normalization actually does: (i) for every key, a
two-dictionary `deep_merge` follows the claimed conflict rules (earliest
scalar wins, lists union, objects merge recursively); (ii) nested `allOf`
nodes are resolved bottom-up, before the parent merges (concrete nested
evaluation through `_do_resolve`); (iii) a concrete two-branch merge
produces exactly the claimed result; but (iv) with three (or more) branches
`reduce(deep_merge, ...)` feeds the generator produced by the first
application back into `deep_merge`, and normalization crashes with an
`AttributeError` instead of merging every branch. -/
theorem C4_allOf_merge_and_three_branch_crash :
    (∀ t s k, (deep_merge t s).lookup k =
      (match t.lookup k, s.lookup k with
       | some tv, some sv => some (merge_pair tv sv)
       | some tv, Option.none => some tv
       | Option.none, some sv => some sv
       | Option.none, Option.none => Option.none)) ∧
    _do_resolve (fun _ => .error .stopIteration) c4nested =
      .ok (.dict (.ofList [("a", .dict (.ofList [("m", .int 1), ("n", .int 2)])),
                           ("b", .int 2)])) ∧
    _normalize_node c4twoBranches =
      .ok (.ofList [("s", .str "first"),
                    ("arr", .list (.ofList [.int 1, .int 2, .int 3])),
                    ("obj", .dict (.ofList [("x", .int 1), ("y", .int 2)]))]) ∧
    _normalize_node c4threeBranches =
      .error (.attributeError "'generator' object has no attribute 'keys'") :=
  ⟨deep_merge_lookup, rfl, rfl, rfl⟩

/-! ### C8 / C9 -/

/-- `q` agrees with `p` on every field except (possibly) the lazily cached
session default `_default`. -/
def eqExceptDefault (p q : PathParameter) : Prop :=
  q._in = p._in ∧ q._name = p._name ∧ q._schema_name = p._schema_name ∧
  q._required = p._required ∧ q._description = p._description ∧
  q._dataype = p._dataype ∧ q._spec = p._spec

/-- The `default` property only ever touches `_default`. -/
theorem defaultP_eqExcept (p : PathParameter) (gd : String → PyVal) :
    eqExceptDefault p (p.defaultP gd).2 := by
  unfold PathParameter.defaultP
  by_cases h : p._default = .none <;> simp [h, eqExceptDefault]

/-- `PathParameter.serialize` returns the parameter changed at most in its
`_default` cache. -/
theorem serialize_eqExceptDefault (p : PathParameter) (gd : String → PyVal)
    (b : Buckets) (kw : PyDict) (b1 : Buckets) (kw1 : PyDict) (p1 : PathParameter)
    (hok : p.serialize gd b kw = .ok (b1, kw1, p1)) : eqExceptDefault p p1 := by
  unfold PathParameter.serialize at hok
  by_cases hc : kw.contains p._name
  · rw [if_neg (by simp [hc]), serializeStore_eq] at hok
    simp at hok
    rw [← hok.2.2]
    exact defaultP_eqExcept p gd
  · rw [if_pos (by simp [hc])] at hok
    by_cases hd : truthy (p.defaultP gd).1
    · rw [if_neg (by simp [hd]), serializeStore_eq] at hok
      simp at hok
      rw [← hok.2.2]
      have h1 := defaultP_eqExcept p gd
      have h2 := defaultP_eqExcept (p.defaultP gd).2 gd
      unfold eqExceptDefault at h1 h2 ⊢
      simp [h2.1, h2.2.1, h2.2.2.1, h2.2.2.2.1, h2.2.2.2.2.1, h2.2.2.2.2.2, h1.1,
        h1.2.1, h1.2.2.1, h1.2.2.2.1, h1.2.2.2.2.1, h1.2.2.2.2.2]
    · rw [if_pos (by simp [hd])] at hok
      by_cases hr : truthy (p.defaultP gd).2._required
      · simp [hr] at hok
      · simp [hr] at hok
        rw [← hok.2.2]
        exact defaultP_eqExcept p gd

/-- `schemaProp` reads only the stored parameter spec, so parameters that
agree off `_default` produce the same schema fragment. -/
theorem schemaProp_eqExcept (p q : PathParameter) (h : eqExceptDefault p q) :
    q.schemaProp = p.schemaProp := by
  unfold PathParameter.schemaProp
  rw [h.2.2.2.2.2.2]

/-- `paramsSchemaGo` is unaffected by repointing the `_default` caches. -/
theorem paramsSchemaGo_eqExcept (ps qs : List PathParameter) (acc : PyDict)
    (h : List.Forall₂ eqExceptDefault ps qs) :
    paramsSchemaGo qs acc = paramsSchemaGo ps acc := by
  induction h generalizing acc with
  | nil => rfl
  | @cons p q ps' qs' hpq _ ih =>
      unfold paramsSchemaGo
      rw [schemaProp_eqExcept p q hpq]
      cases hs : p.schemaProp <;> simp [bind, Except.bind]
      rw [hpq.2.1]
      exact ih _

/-- C8.  `Operation.get_schema()` is read-only and idempotent: the
state-threading translation returns the operation unchanged, a second call
on the returned state yields the structurally identical descriptor, and the
descriptor does not depend on the only mutable cells reachable from an
operation (the parameters' `_default` caches), so repeated calls agree even
when invocations are interleaved. -/
theorem C8_get_schema_idempotent (op : Operation) :
    (op.getSchemaT).2 = op ∧
    ((op.getSchemaT).2.getSchemaT).1 = (op.getSchemaT).1 ∧
    (∀ ps', List.Forall₂ eqExceptDefault op._params ps' →
      Operation.getSchemaM { op with _params := ps' } = op.getSchemaM) := by
  refine ⟨rfl, rfl, ?_⟩
  intro ps' h
  unfold Operation.getSchemaM
  rw [paramsSchemaGo_eqExcept op._params ps' .nil h]

/-- The concrete operation used by the C8 and C9 witnesses: one required
path parameter over the `c3spec` fixture, no body. -/
def c8op : Operation :=
  { _path := "/things", _params := [c3param], _summary := .str "",
    _description := .str "d", _method := "get", _spec := .nil,
    _body := Option.none, _response := ⟨.dict .nil, .nil⟩,
    _operation_id := .str "getThing" }

/-- C8, witness: the threaded call leaves the concrete operation unchanged,
and the descriptor is unchanged by a populated default cache. -/
theorem C8_get_schema_idempotent_witness :
    (c8op.getSchemaT).2 = c8op ∧
    Operation.getSchemaM
        { c8op with _params := [{ c3param with _default := .str "2" }] } =
      Operation.getSchemaM c8op :=
  ⟨(C8_get_schema_idempotent c8op).1,
   (C8_get_schema_idempotent c8op).2.2 _ (by
      refine List.Forall₂.cons ?_ List.Forall₂.nil
      exact ⟨rfl, rfl, rfl, rfl, rfl, rfl, rfl⟩)⟩

/-- C9, counterexample.  The claim's "sole exception" clause is violated:
serializing the parameter loop of an invocation caches the session default
inside the parameter model, mutating it after construction.  With a session
answering `"2"` for `account_id`, the parameter comes back with
`_default = "2"`, a different parameter state than the constructed one. -/
theorem C9_counterexample :
    serializeParams [c3param] (fun _ => .str "2") bEmpty .nil =
      .ok ({ bEmpty with path_params := PyDict.ofList [("account-id", .str "2")] },
           .nil, [{ c3param with _default := .str "2" }]) ∧
    ({ c3param with _default := .str "2" } : PathParameter) ≠ c3param :=
  ⟨rfl, by decide⟩

/-- C9, amended.  After construction, the operations of the model mutate
nothing except the acknowledged lazy caches: the parameter-serialization
loop of an invocation returns every parameter unchanged except (possibly)
its `_default` session-default cache, and `get_schema` returns the
operation state untouched.  (The lazy memoization of the bound callable,
`Operation.__call__`, is the other acknowledged exception.) -/
theorem C9_post_construction_mutation (ps : List PathParameter)
    (gd : String → PyVal) (b : Buckets) (kw : PyDict) (b1 : Buckets)
    (kw1 : PyDict) (ps1 : List PathParameter) (op : Operation)
    (hok : serializeParams ps gd b kw = .ok (b1, kw1, ps1)) :
    List.Forall₂ eqExceptDefault ps ps1 ∧ (op.getSchemaT).2 = op := by
  refine ⟨?_, rfl⟩
  induction ps generalizing b kw b1 kw1 ps1 with
  | nil =>
      simp [serializeParams] at hok
      obtain ⟨-, -, h3⟩ := hok
      subst h3
      exact List.Forall₂.nil
  | cons p tl ih =>
      simp [serializeParams, bind, Except.bind] at hok
      cases hs : p.serialize gd b kw <;> rw [hs] at hok <;> simp at hok
      case ok res =>
        obtain ⟨b2, kw2, p2⟩ := res
        cases ht : serializeParams tl gd b2 kw2 <;> rw [ht] at hok <;> simp at hok
        case ok res2 =>
          obtain ⟨b3, kw3, tl3⟩ := res2
          obtain ⟨-, -, h3⟩ := hok
          subst h3
          exact List.Forall₂.cons
            (serialize_eqExceptDefault p gd b kw b2 kw2 p2 hs) (ih b2 kw2 b3 kw3 tl3 ht)

/-- C9, witness (for the amended theorem): the concrete invocation run of
the `c8op` parameter list yields a parameter list related to the original
by `eqExceptDefault`, differing only in the populated default cache. -/
theorem C9_post_construction_mutation_witness :
    List.Forall₂ eqExceptDefault [c3param] [{ c3param with _default := .str "2" }] ∧
    (c8op.getSchemaT).2 = c8op :=
  C9_post_construction_mutation [c3param] (fun _ => .str "2") bEmpty .nil
    _ _ _ c8op rfl

end Almdrlib
